import Mathlib

set_option linter.unusedVariables false

/-!
Shallow embedding of the call-signaling coordinator (`MessageGateway` in
`src/unnamed/part_001`) and of the receiving endpoint of the signaling
client (`SocketService` in `src/unnamed/part_000`).

JavaScript `Map`s are embedded as insertion-ordered association lists with
the exact `get`/`set`/`delete` semantics (`set` replaces in place, otherwise
appends; iteration follows insertion order).  Timers are identified by the
id of the request/call that owns them.  Every externally visible side
effect of a handler (socket emission, broadcast, timer creation and
cancellation, recording-hook invocation, missed-call bookkeeping) is
recorded in a trace of `Action` values returned next to the updated state.
External collaborators (JWT validation, appointment repository lookups,
the recording service) are passed in as explicit arguments describing
their outcome, mirroring the `await`ed results in the source.
-/

namespace VideoCall

/-- JavaScript number restricted to the values arising in this code base:
integers and `NaN` (`NaN` propagates through arithmetic, as produced by
`parseInt` on a string without leading digits). -/
inductive JsNum where
  | nan : JsNum
  | int : Int → JsNum
deriving DecidableEq

/-- Addition on JavaScript numbers; `NaN` absorbs. -/
def jsAdd : JsNum → JsNum → JsNum
  | JsNum.int a, JsNum.int b => JsNum.int (a + b)
  | _, _ => JsNum.nan

/-- Multiplication on JavaScript numbers; `NaN` absorbs. -/
def jsMul : JsNum → JsNum → JsNum
  | JsNum.int a, JsNum.int b => JsNum.int (a * b)
  | _, _ => JsNum.nan

/-- Numeric value of a run of decimal digits. -/
def digitsVal (ds : List Char) : Nat :=
  ds.foldl (fun acc c => acc * 10 + (c.toNat - 48)) 0

/-- JavaScript `parseInt` on the (decimal) inputs relevant here: skips
leading whitespace, reads an optional sign and then a maximal run of
decimal digits; evaluates to `NaN` when no digit is found. -/
def jsParseInt (s : String) : JsNum :=
  let cs := s.data.dropWhile Char.isWhitespace
  match cs with
  | '-' :: rest =>
      let ds := rest.takeWhile Char.isDigit
      if ds.isEmpty then JsNum.nan else JsNum.int (-(digitsVal ds : Int))
  | '+' :: rest =>
      let ds := rest.takeWhile Char.isDigit
      if ds.isEmpty then JsNum.nan else JsNum.int (digitsVal ds)
  | rest =>
      let ds := rest.takeWhile Char.isDigit
      if ds.isEmpty then JsNum.nan else JsNum.int (digitsVal ds)

/-- `Map.get`: first value bound to the key, `undefined` as `none`. -/
def jsGet {α : Type} : List (String × α) → String → Option α
  | [], _ => none
  | (k, v) :: rest, key => if k = key then some v else jsGet rest key

/-- `Map.set`: replaces the value in place when the key is present
(preserving insertion order), otherwise appends a new entry. -/
def jsSet {α : Type} : List (String × α) → String → α → List (String × α)
  | [], key, v => [(key, v)]
  | (k, w) :: rest, key, v =>
      if k = key then (key, v) :: rest else (k, w) :: jsSet rest key v

/-- `Map.delete`: removes the entries bound to the key. -/
def jsDelete {α : Type} : List (String × α) → String → List (String × α)
  | [], _ => []
  | (k, v) :: rest, key =>
      if k = key then jsDelete rest key else (k, v) :: jsDelete rest key

/-- Outbound events emitted by the gateway handlers modelled here
(payload fields as in the source emissions). -/
inductive Event where
  | userStatusChange (user_id status : String)
  | message (fromUser data : String)
  | callError (message : String)
  | incomingCall (callId caller appointmentId offer : String) (isDoctorCall : Bool)
  | callRinging (callId receiver : String)
  | callRejected (receiver reason : String)
  | answerError (message : String)
  | callAccepted (callId answer receiver appointmentId : String)
  | callEnded (callId appointmentId : String) (endedBy : Option String) (message : String)
  | callCanceled (callId reason : String)
deriving DecidableEq

/-- Externally visible side effects of one handler invocation, in program
order: targeted emission (`server.to(sid).emit` and `client.emit`),
broadcast (`server.emit`), timer creation/cancellation (timers are named
by the owning request/call id), recording-hook invocations (`ok = false`
records that the hook threw and the failure was caught and logged), and
missed-call bookkeeping. -/
inductive Action where
  | emit (socketId : String) (event : Event)
  | broadcast (event : Event)
  | setReqTimeout (callId : String) (ms : Nat)
  | setCallTimeout (callId : String) (delay : JsNum)
  | clearTimer (callId : String)
  | recordingInit (appointmentId : String)
  | recordingStart (appointmentId callId : String) (ok : Bool)
  | recordingStop (appointmentId : String) (ok : Bool)
  | markCallbackUsed (missedCallId : String)
deriving DecidableEq

/-- Whether an action is a broadcast to all connections (`server.emit`). -/
def Action.isBroadcast : Action → Bool
  | Action.broadcast _ => true
  | _ => false

/-- Whether an action invokes the recording-stop path. -/
def Action.isRecordingStop : Action → Bool
  | Action.recordingStop _ _ => true
  | _ => false

/-- Participant-facing deliveries of a trace: the targeted emissions and
broadcasts, with internal effects (timers, recording hook, bookkeeping)
filtered out. -/
def participantEmits (tr : List Action) : List Action :=
  tr.filter fun a =>
    match a with
    | Action.emit _ _ => true
    | Action.broadcast _ => true
    | _ => false

/-- Entry of `activeCalls` (part_001 lines 49-58). -/
structure ActiveCall where
  caller : String
  receiver : String
  startTime : Nat
  appointmentId : String
  callTimeout : Option JsNum
deriving DecidableEq

/-- Entry of `callRequests` (part_001 lines 61-69); the stored timeout
handle is modelled by the timer named after the request id. -/
structure CallRequest where
  caller : String
  receiver : String
  appointmentId : String
deriving DecidableEq

/-- The four mutable maps of `MessageGateway` (the declared-but-unused
`disconnectTimeouts` map is omitted): `clients` maps a user id to a single
socket id, `socketToUser` is the reverse index over sockets. -/
structure GatewayState where
  clients : List (String × String)
  socketToUser : List (String × String)
  activeCalls : List (String × ActiveCall)
  callRequests : List (String × CallRequest)
deriving DecidableEq

/-- `handleConnection` (part_001 lines 81-126), success path after JWT
verification yielded `userId`: stores both mappings and broadcasts an
online presence event.  `clients.set` binds the user to this single socket
id, displacing any previously stored socket of the same user. -/
def handleConnection (st : GatewayState) (socketId userId : String) :
    GatewayState × List Action :=
  ({st with
      clients := jsSet st.clients userId socketId,
      socketToUser := jsSet st.socketToUser socketId userId},
   [Action.broadcast (Event.userStatusChange userId "online")])

/-- `listenForMessages` (part_001 lines 222-234): relays a direct message
to the single socket id that `clients` holds for the recipient. -/
def listenForMessages (st : GatewayState) (toUser fromUser data : String) :
    List Action :=
  match jsGet st.clients toUser with
  | some recipientSocketId =>
      [Action.emit recipientSocketId (Event.message fromUser data)]
  | none => []

/-- Appointment row used by `handleCall` to determine roles
(`appointment.service.user_id` and `appointment.user_id`,
part_001 lines 460-472). -/
structure CallAppointment where
  service_user_id : String
  user_id : String
deriving DecidableEq

/-- Result of the appointment-repository call validations used by
`handleCall` (`validateDoctorCallAccess` / `validatePatientCallbackAccess`):
success flag, message for the error path, and the missed-call id returned
by a successful patient-callback validation. -/
structure CallValidation where
  success : Bool
  message : String
  missedCallId : Option String
deriving DecidableEq

/-- Outcomes of the external collaborators consulted by one `handleCall`
invocation, plus the freshly generated call id (`call-${Date.now()}-...`,
part_001 line 513). -/
structure CallEnv where
  appointment : Option CallAppointment
  doctorValidation : CallValidation
  patientValidation : CallValidation
  newCallId : String
deriving DecidableEq

/-- Tail of `handleCall` (part_001 lines 502-599) shared by the doctor and
patient branches: validation check, receiver presence lookup, creation of
the call request with its 30-second unanswered timer, recording-state
initialisation, missed-call callback bookkeeping and the
`incomingCall`/`callRinging` emissions. -/
def proceedCall (st : GatewayState)
    (clientSid appointmentId receiver offer callerId : String)
    (isDoctorCalling : Bool) (validation : CallValidation)
    (newCallId : String) : GatewayState × List Action :=
  if validation.success = false then
    (st, [Action.emit clientSid (Event.callError validation.message)])
  else
    match jsGet st.clients receiver with
    | some receiverSocketId =>
        let callId := newCallId
        let newRequest : CallRequest := ⟨callerId, receiver, appointmentId⟩
        let st1 : GatewayState :=
          {st with callRequests := jsSet st.callRequests callId newRequest}
        let callbackActs : List Action :=
          match isDoctorCalling, validation.missedCallId with
          | false, some mid => [Action.markCallbackUsed mid]
          | _, _ => []
        (st1,
         [Action.recordingInit appointmentId,
          Action.setReqTimeout callId 30000]
         ++ callbackActs
         ++ [Action.emit receiverSocketId
              (Event.incomingCall callId callerId appointmentId offer isDoctorCalling),
             Action.emit clientSid (Event.callRinging callId receiver)])
    | none =>
        (st, [Action.emit clientSid
          (Event.callError "Recipient is not online or not available.")])

/-- `handleCall` (part_001 lines 411-606): resolves the caller through the
reverse index, rejects when the caller or the receiver is a party of an
entry of `activeCalls` (pending `callRequests` are not consulted), then
determines the role from the appointment, validates access and proceeds
through `proceedCall`. -/
def handleCall (st : GatewayState)
    (clientSid appointmentId receiver offer : String) (env : CallEnv) :
    GatewayState × List Action :=
  match jsGet st.socketToUser clientSid with
  | none =>
      (st, [Action.emit clientSid
        (Event.callError "Authentication required. Please login again.")])
  | some callerId =>
      match st.activeCalls.find? fun p =>
          p.2.caller == callerId || p.2.receiver == callerId with
      | some _ =>
          (st, [Action.emit clientSid
            (Event.callError "You are already in another call. Please end it first.")])
      | none =>
      match st.activeCalls.find? fun p =>
          p.2.caller == receiver || p.2.receiver == receiver with
      | some _ =>
          (st, [Action.emit clientSid
            (Event.callError "Recipient is already in another call.")])
      | none =>
      match env.appointment with
      | none =>
          (st, [Action.emit clientSid (Event.callError "Appointment not found.")])
      | some appointment =>
          let isDoctorCalling := appointment.service_user_id == callerId
          let isPatientCalling := appointment.user_id == callerId
          if isDoctorCalling then
            proceedCall st clientSid appointmentId receiver offer callerId
              true env.doctorValidation env.newCallId
          else if isPatientCalling then
            proceedCall st clientSid appointmentId receiver offer callerId
              false env.patientValidation env.newCallId
          else
            (st, [Action.emit clientSid
              (Event.callError "You are not authorized for this appointment.")])

/-- `handleRejectCall` (part_001 lines 609-645): silently returns when the
rejecting socket is not registered or the request is unknown; otherwise
cancels the unanswered timer, removes the request and notifies the caller
if reachable. -/
def handleRejectCall (st : GatewayState) (clientSid callId reason : String) :
    GatewayState × List Action :=
  match (st.clients.find? fun p => p.2 == clientSid).map Prod.fst with
  | none => (st, [])
  | some receiverId =>
      match jsGet st.callRequests callId with
      | none => (st, [])
      | some callRequest =>
          let st1 : GatewayState :=
            {st with callRequests := jsDelete st.callRequests callId}
          match jsGet st1.clients callRequest.caller with
          | some callerSocketId =>
              (st1, [Action.clearTimer callId,
                     Action.emit callerSocketId (Event.callRejected receiverId reason)])
          | none => (st1, [Action.clearTimer callId])

/-- Nested rows `validation.appointment?.service?.duration` used by
`handleAnswer` (part_001 lines 705-707). -/
structure AnswerService where
  duration : Option String
deriving DecidableEq

/-- Appointment row attached to a successful `validateCallAccess` result. -/
structure AnswerAppointment where
  service : Option AnswerService
deriving DecidableEq

/-- Result of `AppointmentRepository.validateCallAccess` as consumed by
`handleAnswer`. -/
structure AnswerValidation where
  success : Bool
  message : String
  appointment : Option AnswerAppointment
deriving DecidableEq

/-- The optional chain `validation.appointment?.service?.duration`. -/
def durationChain (v : AnswerValidation) : Option String :=
  (v.appointment.bind fun a => a.service).bind fun s => s.duration

/-- `handleAnswer` (part_001 lines 648-742): resolves the answering user by
scanning `clients` for the socket, deletes the call request and cancels its
timer when one exists (with no error path for an unknown request), runs the
access validation, and, when the caller is reachable, invokes the
recording-start hook inside try/catch, stores the active call, computes the
duration budget `(durationInMinutes + 5) * 60 * 1000` (where
`durationInMinutes` falls back to 60 only when the metadata is absent or
empty, and is `parseInt` of it otherwise), starts the duration timer and
relays `callAccepted`; when the caller is unreachable it reports
`answerError` to the answering client. -/
def handleAnswer (st : GatewayState)
    (clientSid callId caller appointmentId answer : String)
    (validation : AnswerValidation) (recordingFails : Bool) (now : Nat) :
    GatewayState × List Action :=
  match (st.clients.find? fun p => p.2 == clientSid).map Prod.fst with
  | none =>
      (st, [Action.emit clientSid
        (Event.answerError "Authentication required. Please login again.")])
  | some receiverId =>
      let st1 : GatewayState :=
        match jsGet st.callRequests callId with
        | some _ => {st with callRequests := jsDelete st.callRequests callId}
        | none => st
      let acts1 : List Action :=
        match jsGet st.callRequests callId with
        | some _ => [Action.clearTimer callId]
        | none => []
      if validation.success = false then
        (st1, acts1 ++ [Action.emit clientSid (Event.answerError validation.message)])
      else
        match jsGet st1.clients caller with
        | some callerSocketId =>
            let durationInMinutes : JsNum :=
              match durationChain validation with
              | some d => if d = "" then JsNum.int 60 else jsParseInt d
              | none => JsNum.int 60
            let delay : JsNum :=
              jsMul (jsMul (jsAdd durationInMinutes (JsNum.int 5)) (JsNum.int 60))
                (JsNum.int 1000)
            let newCall : ActiveCall := ⟨caller, receiverId, now, appointmentId, none⟩
            let st2 : GatewayState :=
              {st1 with activeCalls := jsSet st1.activeCalls callId newCall}
            let st3 : GatewayState :=
              match jsGet st2.activeCalls callId with
              | some c =>
                  let withTimer := jsSet st2.activeCalls callId {c with callTimeout := some delay}
                  {st2 with activeCalls := withTimer}
              | none => st2
            (st3, acts1
              ++ [Action.recordingStart appointmentId callId (!recordingFails),
                  Action.setCallTimeout callId delay,
                  Action.emit callerSocketId
                    (Event.callAccepted callId answer receiverId appointmentId)])
        | none =>
            (st1, acts1
              ++ [Action.emit clientSid (Event.answerError "Caller is no longer available.")])

/-- `handleEndCall` (part_001 lines 745-793): no-op on an unknown call id;
otherwise invokes the recording-stop path inside try/catch, cancels the
duration timer if attached, removes the active call and notifies each
reachable party with `callEnded` carrying the ending user resolved from the
reverse index. -/
def handleEndCall (st : GatewayState) (clientSid callId appointmentId : String)
    (recordingFails : Bool) : GatewayState × List Action :=
  match jsGet st.activeCalls callId with
  | none => (st, [])
  | some call =>
      let timerActs : List Action :=
        match call.callTimeout with
        | some _ => [Action.clearTimer callId]
        | none => []
      let st1 : GatewayState :=
        {st with activeCalls := jsDelete st.activeCalls callId}
      let endedBy : Option String := jsGet st1.socketToUser clientSid
      let endMessage : Event :=
        Event.callEnded callId appointmentId endedBy "Call ended by participant"
      let callerActs : List Action :=
        match jsGet st1.clients call.caller with
        | some sid => [Action.emit sid endMessage]
        | none => []
      let receiverActs : List Action :=
        match jsGet st1.clients call.receiver with
        | some sid => [Action.emit sid endMessage]
        | none => []
      (st1, [Action.recordingStop appointmentId (!recordingFails)]
            ++ timerActs ++ callerActs ++ receiverActs)

/-- Body of the loop of `handleDisconnect` over the active calls that
reference the disconnected user (part_001 lines 157-179): cancels the
duration timer if attached, removes the call and notifies the other party
if still connected, with `endedBy = "disconnect"`.  No recording-stop is
performed on this path. -/
def disconnectCallStep (userId : String) (acc : GatewayState × List Action)
    (entry : String × ActiveCall) : GatewayState × List Action :=
  let callId := entry.1
  let call := entry.2
  let otherPartyId := if call.caller == userId then call.receiver else call.caller
  let otherPartySocketId := jsGet acc.1.clients otherPartyId
  let timerActs : List Action :=
    match call.callTimeout with
    | some _ => [Action.clearTimer callId]
    | none => []
  let st1 : GatewayState := {acc.1 with activeCalls := jsDelete acc.1.activeCalls callId}
  let notifyActs : List Action :=
    match otherPartySocketId with
    | some sid =>
        [Action.emit sid (Event.callEnded callId call.appointmentId
          (some "disconnect") "The other participant disconnected")]
    | none => []
  (st1, acc.2 ++ timerActs ++ notifyActs)

/-- Body of the loop of `handleDisconnect` over the pending call requests
that reference the disconnected user (part_001 lines 187-202): cancels the
unanswered timer, removes the request and, when the disconnected user was
the caller, notifies the receiver that the call was canceled. -/
def disconnectReqStep (userId : String) (acc : GatewayState × List Action)
    (entry : String × CallRequest) : GatewayState × List Action :=
  let callId := entry.1
  let req := entry.2
  let st1 : GatewayState := {acc.1 with callRequests := jsDelete acc.1.callRequests callId}
  let notifyActs : List Action :=
    if req.caller == userId then
      match jsGet st1.clients req.receiver with
      | some receiverSocketId =>
          [Action.emit receiverSocketId (Event.callCanceled callId "Caller disconnected")]
      | none => []
    else []
  (st1, acc.2 ++ [Action.clearTimer callId] ++ notifyActs)

/-- `handleDisconnect` (part_001 lines 129-212): looks up the owning user in
the reverse index (no-op when unknown), removes the socket, and only when no
other socket of the same user remains, removes the user from `clients` and
cascades cleanup over the active calls and pending requests that reference
the user.  No presence event is broadcast on any path. -/
def handleDisconnect (st : GatewayState) (clientSid : String) :
    GatewayState × List Action :=
  match jsGet st.socketToUser clientSid with
  | none => (st, [])
  | some userId =>
      let socketToUser1 := jsDelete st.socketToUser clientSid
      let hasOtherSockets := socketToUser1.any fun p => p.2 == userId
      if hasOtherSockets then
        ({st with socketToUser := socketToUser1}, [])
      else
        let st1 : GatewayState :=
          {st with socketToUser := socketToUser1,
                   clients := jsDelete st.clients userId}
        let endedCalls := st1.activeCalls.filter fun p =>
          p.2.caller == userId || p.2.receiver == userId
        let r1 := endedCalls.foldl (disconnectCallStep userId) (st1, [])
        let pendingRequests := r1.1.callRequests.filter fun p =>
          p.2.caller == userId || p.2.receiver == userId
        pendingRequests.foldl (disconnectReqStep userId) r1

/-- State of the receiving endpoint of the signaling client relevant to
negotiation-candidate ordering (`SocketService`, part_000):
`remoteDescSet`, the `candidateQueue`, and the cumulative list of
candidates handed to `peerConnection.addIceCandidate`, in order. -/
structure ClientCallState where
  remoteDescSet : Bool
  candidateQueue : List String
  addedCandidates : List String
deriving DecidableEq

/-- `flushCandidates` (part_000 lines 417-425): adds every queued candidate
to the peer connection in queue order, then empties the queue. -/
def flushCandidates (s : ClientCallState) : ClientCallState :=
  {s with addedCandidates := s.addedCandidates ++ s.candidateQueue,
          candidateQueue := []}

/-- The `iceCandidate` handler (part_000 lines 183-196): queues the
candidate until the remote description is set, afterwards adds it to the
peer connection directly. -/
def recvIceCandidate (s : ClientCallState) (candidate : String) : ClientCallState :=
  if s.remoteDescSet = false then
    {s with candidateQueue := s.candidateQueue ++ [candidate]}
  else
    {s with addedCandidates := s.addedCandidates ++ [candidate]}

/-- Applying the remote session description (the `callAccepted` handler,
part_000 lines 147-161, and `answerCall`, lines 301-338):
`setRemoteDescription` followed by `remoteDescSet = true` and
`flushCandidates()`. -/
def applyRemoteDescription (s : ClientCallState) : ClientCallState :=
  flushCandidates {s with remoteDescSet := true}

/-- Inbound signaling events at the receiving endpoint. -/
inductive SignalEv where
  | candidate (c : String)
  | remoteDescription
deriving DecidableEq

/-- One inbound signaling event processed to completion. -/
def clientStep (s : ClientCallState) : SignalEv → ClientCallState
  | SignalEv.candidate c => recvIceCandidate s c
  | SignalEv.remoteDescription => applyRemoteDescription s

/-- A sequence of inbound signaling events processed in order. -/
def clientRun (s : ClientCallState) (evs : List SignalEv) : ClientCallState :=
  evs.foldl clientStep s

/-- Fresh endpoint state (`remoteDescSet = false`, empty queue). -/
def initialClientState : ClientCallState := ⟨false, [], []⟩

/-- The candidates carried by a sequence of signaling events, in arrival
order. -/
def candidatesOf (evs : List SignalEv) : List String :=
  evs.filterMap fun e =>
    match e with
    | SignalEv.candidate c => some c
    | SignalEv.remoteDescription => none

theorem jsGet_jsDelete_self {α : Type} (m : List (String × α)) (k : String) :
    jsGet (jsDelete m k) k = none := by
  induction m with
  | nil => rfl
  | cons e rest ih =>
      obtain ⟨k0, v0⟩ := e
      by_cases h : k0 = k
      · simp [jsDelete, h, ih]
      · simp [jsDelete, jsGet, h, ih]

theorem jsGet_jsSet_self {α : Type} (m : List (String × α)) (k : String) (v : α) :
    jsGet (jsSet m k v) k = some v := by
  induction m with
  | nil => simp [jsSet, jsGet]
  | cons e rest ih =>
      obtain ⟨k0, v0⟩ := e
      by_cases h : k0 = k
      · simp [jsSet, h, jsGet]
      · simp [jsSet, jsGet, h, ih]

theorem jsGet_jsSet_ne {α : Type} (m : List (String × α)) (k key : String) (v : α)
    (h : k ≠ key) : jsGet (jsSet m key v) k = jsGet m k := by
  induction m with
  | nil => simp [jsSet, jsGet, Ne.symm h]
  | cons e rest ih =>
      obtain ⟨k0, v0⟩ := e
      by_cases h0 : k0 = key
      · subst h0
        simp [jsSet, jsGet, Ne.symm h]
      · simp only [jsSet, if_neg h0]
        by_cases h1 : k0 = k
        · simp [jsGet, h1]
        · simp [jsGet, h1, ih]

theorem jsSet_jsSet {α : Type} (m : List (String × α)) (k : String) (v w : α) :
    jsSet (jsSet m k v) k w = jsSet m k w := by
  induction m with
  | nil => simp [jsSet]
  | cons e rest ih =>
      obtain ⟨k0, v0⟩ := e
      by_cases h : k0 = k
      · simp [jsSet, h]
      · simp [jsSet, h, ih]

theorem disconnectCallStep_fields (u : String) (acc : GatewayState × List Action)
    (e : String × ActiveCall) :
    ((disconnectCallStep u acc e).1.socketToUser = acc.1.socketToUser
      ∧ (disconnectCallStep u acc e).1.clients = acc.1.clients)
      ∧ (disconnectCallStep u acc e).1.callRequests = acc.1.callRequests := by
  simp [disconnectCallStep]

theorem disconnectReqStep_fields (u : String) (acc : GatewayState × List Action)
    (e : String × CallRequest) :
    ((disconnectReqStep u acc e).1.socketToUser = acc.1.socketToUser
      ∧ (disconnectReqStep u acc e).1.clients = acc.1.clients)
      ∧ (disconnectReqStep u acc e).1.activeCalls = acc.1.activeCalls := by
  simp [disconnectReqStep]

theorem callFold_fields (u : String) (l : List (String × ActiveCall))
    (acc : GatewayState × List Action) :
    ((l.foldl (disconnectCallStep u) acc).1.socketToUser = acc.1.socketToUser
      ∧ (l.foldl (disconnectCallStep u) acc).1.clients = acc.1.clients)
      ∧ (l.foldl (disconnectCallStep u) acc).1.callRequests = acc.1.callRequests := by
  induction l generalizing acc with
  | nil => simp
  | cons e rest ih =>
      rw [List.foldl_cons]
      obtain ⟨⟨h1, h2⟩, h3⟩ := ih (disconnectCallStep u acc e)
      obtain ⟨⟨g1, g2⟩, g3⟩ := disconnectCallStep_fields u acc e
      exact ⟨⟨h1.trans g1, h2.trans g2⟩, h3.trans g3⟩

theorem reqFold_fields (u : String) (l : List (String × CallRequest))
    (acc : GatewayState × List Action) :
    ((l.foldl (disconnectReqStep u) acc).1.socketToUser = acc.1.socketToUser
      ∧ (l.foldl (disconnectReqStep u) acc).1.clients = acc.1.clients)
      ∧ (l.foldl (disconnectReqStep u) acc).1.activeCalls = acc.1.activeCalls := by
  induction l generalizing acc with
  | nil => simp
  | cons e rest ih =>
      rw [List.foldl_cons]
      obtain ⟨⟨h1, h2⟩, h3⟩ := ih (disconnectReqStep u acc e)
      obtain ⟨⟨g1, g2⟩, g3⟩ := disconnectReqStep_fields u acc e
      exact ⟨⟨h1.trans g1, h2.trans g2⟩, h3.trans g3⟩

theorem disconnectCallStep_acts (u : String) (acc : GatewayState × List Action)
    (e : String × ActiveCall) :
    ∀ a ∈ (disconnectCallStep u acc e).2, a ∈ acc.2 ∨ a.isBroadcast = false := by
  intro a ha
  simp only [disconnectCallStep] at ha
  rcases List.mem_append.1 ha with h1 | h2
  · rcases List.mem_append.1 h1 with h3 | h4
    · exact Or.inl h3
    · right
      split at h4
      · rw [List.mem_singleton] at h4
        subst h4
        rfl
      · cases h4
  · right
    split at h2
    · rw [List.mem_singleton] at h2
      subst h2
      rfl
    · cases h2

theorem disconnectReqStep_acts (u : String) (acc : GatewayState × List Action)
    (e : String × CallRequest) :
    ∀ a ∈ (disconnectReqStep u acc e).2, a ∈ acc.2 ∨ a.isBroadcast = false := by
  intro a ha
  simp only [disconnectReqStep] at ha
  rcases List.mem_append.1 ha with h1 | h2
  · rcases List.mem_append.1 h1 with h3 | h4
    · exact Or.inl h3
    · right
      rw [List.mem_singleton] at h4
      subst h4
      rfl
  · right
    split at h2
    · split at h2
      · rw [List.mem_singleton] at h2
        subst h2
        rfl
      · cases h2
    · cases h2

theorem callFold_no_broadcast (u : String) (l : List (String × ActiveCall))
    (acc : GatewayState × List Action)
    (h : ∀ a ∈ acc.2, a.isBroadcast = false) :
    ∀ a ∈ (l.foldl (disconnectCallStep u) acc).2, a.isBroadcast = false := by
  induction l generalizing acc with
  | nil => exact h
  | cons e rest ih =>
      rw [List.foldl_cons]
      apply ih
      intro a ha
      rcases disconnectCallStep_acts u acc e a ha with hmem | hfalse
      · exact h a hmem
      · exact hfalse

theorem reqFold_no_broadcast (u : String) (l : List (String × CallRequest))
    (acc : GatewayState × List Action)
    (h : ∀ a ∈ acc.2, a.isBroadcast = false) :
    ∀ a ∈ (l.foldl (disconnectReqStep u) acc).2, a.isBroadcast = false := by
  induction l generalizing acc with
  | nil => exact h
  | cons e rest ih =>
      rw [List.foldl_cons]
      apply ih
      intro a ha
      rcases disconnectReqStep_acts u acc e a ha with hmem | hfalse
      · exact h a hmem
      · exact hfalse

theorem clientRun_descSet (evs : List SignalEv) (s : ClientCallState)
    (h1 : s.remoteDescSet = true) (h2 : s.candidateQueue = []) :
    clientRun s evs =
      ⟨true, [], s.addedCandidates ++ candidatesOf evs⟩ := by
  induction evs generalizing s with
  | nil =>
      obtain ⟨rds, q, ad⟩ := s
      simp_all [clientRun, candidatesOf]
  | cons e rest ih =>
      cases e with
      | candidate c =>
          have hstep : clientStep s (SignalEv.candidate c) =
              {s with addedCandidates := s.addedCandidates ++ [c]} := by
            simp [clientStep, recvIceCandidate, h1]
          have hrun : clientRun s (SignalEv.candidate c :: rest)
              = clientRun {s with addedCandidates := s.addedCandidates ++ [c]} rest := by
            simp only [clientRun, List.foldl_cons, hstep]
          rw [hrun, ih {s with addedCandidates := s.addedCandidates ++ [c]} h1 h2]
          simp [candidatesOf]
      | remoteDescription =>
          have hstep : clientStep s SignalEv.remoteDescription =
              ⟨true, [], s.addedCandidates⟩ := by
            simp [clientStep, applyRemoteDescription, flushCandidates, h2]
          have hrun : clientRun s (SignalEv.remoteDescription :: rest)
              = clientRun ⟨true, [], s.addedCandidates⟩ rest := by
            simp only [clientRun, List.foldl_cons, hstep]
          rw [hrun, ih ⟨true, [], s.addedCandidates⟩ rfl rfl]
          simp [candidatesOf]

theorem clientRun_flushes (evs : List SignalEv) (s : ClientCallState)
    (hrds : s.remoteDescSet = false) (hmem : SignalEv.remoteDescription ∈ evs) :
    clientRun s evs =
      ⟨true, [], s.addedCandidates ++ s.candidateQueue ++ candidatesOf evs⟩ := by
  induction evs generalizing s with
  | nil => cases hmem
  | cons e rest ih =>
      cases e with
      | candidate c =>
          have hmem2 : SignalEv.remoteDescription ∈ rest := by
            rcases List.mem_cons.1 hmem with h | h
            · cases h
            · exact h
          have hstep : clientStep s (SignalEv.candidate c) =
              {s with candidateQueue := s.candidateQueue ++ [c]} := by
            simp [clientStep, recvIceCandidate, hrds]
          have hrun : clientRun s (SignalEv.candidate c :: rest)
              = clientRun {s with candidateQueue := s.candidateQueue ++ [c]} rest := by
            simp only [clientRun, List.foldl_cons, hstep]
          rw [hrun, ih {s with candidateQueue := s.candidateQueue ++ [c]} hrds hmem2]
          simp [candidatesOf]
      | remoteDescription =>
          have hstep : clientStep s SignalEv.remoteDescription =
              ⟨true, [], s.addedCandidates ++ s.candidateQueue⟩ := by
            simp [clientStep, applyRemoteDescription, flushCandidates]
          have hrun : clientRun s (SignalEv.remoteDescription :: rest)
              = clientRun ⟨true, [], s.addedCandidates ++ s.candidateQueue⟩ rest := by
            simp only [clientRun, List.foldl_cons, hstep]
          rw [hrun, clientRun_descSet rest ⟨true, [], s.addedCandidates ++ s.candidateQueue⟩ rfl rfl]
          simp [candidatesOf]

theorem handleDisconnect_socketToUser (st : GatewayState) (sid u : String)
    (h : jsGet st.socketToUser sid = some u) :
    (handleDisconnect st sid).1.socketToUser = jsDelete st.socketToUser sid := by
  unfold handleDisconnect
  simp only [h]
  split
  · rfl
  · exact ((reqFold_fields _ _ _).1.1).trans ((callFold_fields _ _ _).1.1)

theorem handleDisconnect_clients_last (st : GatewayState) (sid u : String)
    (h : jsGet st.socketToUser sid = some u)
    (hlast : ((jsDelete st.socketToUser sid).any fun p => p.2 == u) = false) :
    (handleDisconnect st sid).1.clients = jsDelete st.clients u := by
  unfold handleDisconnect
  simp only [h, hlast, Bool.false_eq_true, if_false]
  exact ((reqFold_fields _ _ _).1.2).trans ((callFold_fields _ _ _).1.2)

theorem handleDisconnect_no_broadcast (st : GatewayState) (sid : String) :
    ∀ a ∈ (handleDisconnect st sid).2, a.isBroadcast = false := by
  unfold handleDisconnect
  cases h : jsGet st.socketToUser sid with
  | none => simp
  | some u =>
      simp only [h]
      split
      · simp
      · apply reqFold_no_broadcast
        apply callFold_no_broadcast
        simp

/-- C7: the disconnect cascade is idempotent.  Running `handleDisconnect`
for a socket twice in a row leaves the state exactly as after the first
run and the second run emits no notification and performs no side effect
(the reverse index no longer resolves the socket, so the handler returns
immediately). -/
theorem C7_disconnect_idempotent (st : GatewayState) (clientSid : String) :
    handleDisconnect (handleDisconnect st clientSid).1 clientSid
      = ((handleDisconnect st clientSid).1, []) := by
  have key : jsGet (handleDisconnect st clientSid).1.socketToUser clientSid = none := by
    cases h : jsGet st.socketToUser clientSid with
    | none =>
        have hid : handleDisconnect st clientSid = (st, []) := by
          unfold handleDisconnect
          simp [h]
        rw [hid]
        exact h
    | some u =>
        rw [handleDisconnect_socketToUser st clientSid u h]
        exact jsGet_jsDelete_self _ _
  generalize hX : (handleDisconnect st clientSid).1 = X at key ⊢
  unfold handleDisconnect
  rw [key]

/-- C3 (corrected): when the last live connection of a user is
unregistered, the user is removed from the `clients` registry (the call
cleanup cascade runs), but no presence event of any kind is broadcast by
the disconnect path; in particular no presence-offline event is emitted,
for last and non-last connections alike. -/
theorem C3_last_disconnect_no_presence_event (st : GatewayState) (sid u : String)
    (huser : jsGet st.socketToUser sid = some u)
    (hlast : ((jsDelete st.socketToUser sid).any fun p => p.2 == u) = false) :
    jsGet (handleDisconnect st sid).1.clients u = none
      ∧ ((handleDisconnect st sid).2.all fun a => !a.isBroadcast) = true := by
  constructor
  · rw [handleDisconnect_clients_last st sid u huser hlast]
    exact jsGet_jsDelete_self _ _
  · rw [List.all_eq_true]
    intro a ha
    have hb := handleDisconnect_no_broadcast st sid a ha
    simp [hb]

/-- C3 witness: a concrete last-connection disconnect, evaluated through
the theorem: the user disappears from the registry and the trace contains
no broadcast. -/
theorem C3_last_disconnect_no_presence_event_witness :
    jsGet (handleDisconnect
        ⟨[("A", "sA"), ("B", "sB")], [("sA", "A"), ("sB", "B")], [], []⟩ "sA").1.clients "A" = none
      ∧ ((handleDisconnect
        ⟨[("A", "sA"), ("B", "sB")], [("sA", "A"), ("sB", "B")], [], []⟩ "sA").2.all
          fun a => !a.isBroadcast) = true :=
  C3_last_disconnect_no_presence_event
    ⟨[("A", "sA"), ("B", "sB")], [("sA", "A"), ("sB", "B")], [], []⟩ "sA" "A"
    (by decide) (by decide)

/-- C3 counterexample: the claim says a presence-offline event is emitted
when the last connection of a user is unregistered.  On the code, the last
(and only) connection of user `A` disconnecting removes `A` from both maps
yet produces an empty trace: no offline event is emitted at all. -/
theorem C3_no_offline_event_counterexample :
    handleDisconnect ⟨[("A", "sA")], [("sA", "A")], [], []⟩ "sA"
      = (⟨[], [], [], []⟩, []) := by
  decide

/-- C4 (corrected): when the last connection of user B disconnects during
an Active Call with A, the coordinator removes the Active Call entry,
cancels its duration timer and notifies A with `callEnded` carrying
`endedBy = "disconnect"` — but, unlike `end`, the disconnect path never
invokes the recording hook's stop path: the trace is exactly the timer
cancellation and the notification. -/
theorem C4_disconnect_call_cleanup
    (st : GatewayState) (sidA sidB userA userB callId : String)
    (call : ActiveCall) (d : JsNum)
    (huser : jsGet st.socketToUser sidB = some userB)
    (hlast : ((jsDelete st.socketToUser sidB).any fun p => p.2 == userB) = false)
    (hcalls : (st.activeCalls.filter fun p => p.2.caller == userB || p.2.receiver == userB)
        = [(callId, call)])
    (hcaller : call.caller = userA) (hne : userA ≠ userB)
    (htimer : call.callTimeout = some d)
    (hsockA : jsGet (jsDelete st.clients userB) userA = some sidA)
    (hreqs : (st.callRequests.filter fun p => p.2.caller == userB || p.2.receiver == userB) = []) :
    handleDisconnect st sidB
      = ({st with socketToUser := jsDelete st.socketToUser sidB,
                  clients := jsDelete st.clients userB,
                  activeCalls := jsDelete st.activeCalls callId},
         [Action.clearTimer callId,
          Action.emit sidA (Event.callEnded callId call.appointmentId
            (some "disconnect") "The other participant disconnected")]) := by
  have hbne : (call.caller == userB) = false := by
    rw [hcaller]
    exact beq_eq_false_iff_ne.mpr hne
  unfold handleDisconnect
  simp only [huser, hlast, Bool.false_eq_true, if_false, hcalls, hreqs,
    List.foldl_cons, List.foldl_nil]
  simp only [disconnectCallStep, hbne, Bool.false_eq_true, if_false, htimer,
    hcaller, hsockA]
  simp [hne, hsockA, hreqs]

/-- C4 witness: concrete disconnect of B during an active call with A,
evaluated through the theorem. -/
theorem C4_disconnect_call_cleanup_witness :
    handleDisconnect
        ⟨[("A", "sA"), ("B", "sB")], [("sA", "A"), ("sB", "B")],
         [("c1", ⟨"A", "B", 0, "ap1", some (JsNum.int 3900000)⟩)], []⟩ "sB"
      = (⟨[("A", "sA")], [("sA", "A")], [], []⟩,
         [Action.clearTimer "c1",
          Action.emit "sA" (Event.callEnded "c1" "ap1"
            (some "disconnect") "The other participant disconnected")]) := by
  have h := C4_disconnect_call_cleanup
    ⟨[("A", "sA"), ("B", "sB")], [("sA", "A"), ("sB", "B")],
     [("c1", ⟨"A", "B", 0, "ap1", some (JsNum.int 3900000)⟩)], []⟩
    "sA" "sB" "A" "B" "c1" ⟨"A", "B", 0, "ap1", some (JsNum.int 3900000)⟩
    (JsNum.int 3900000) (by decide) (by decide) (by decide) (by decide)
    (by decide) (by decide) (by decide) (by decide)
  simpa using h

/-- C4 counterexample: the claim says the disconnect cleanup invokes the
recording hook's stop path (the same cleanup as `end`).  On the code, B
disconnecting during an active call with A removes the call and notifies A
with `endedBy = "disconnect"`, yet the trace contains no recording-stop
invocation (while `handleEndCall` on the same state does produce one). -/
theorem C4_disconnect_no_recording_stop_counterexample :
    ((handleDisconnect
        ⟨[("A", "sA"), ("B", "sB")], [("sA", "A"), ("sB", "B")],
         [("c2", ⟨"A", "B", 0, "ap2", some (JsNum.int 60000)⟩)], []⟩ "sB").2.all
      fun a => !a.isRecordingStop) = true
    ∧ ((handleDisconnect
        ⟨[("A", "sA"), ("B", "sB")], [("sA", "A"), ("sB", "B")],
         [("c2", ⟨"A", "B", 0, "ap2", some (JsNum.int 60000)⟩)], []⟩ "sB").2.any
      fun a => a == Action.emit "sA" (Event.callEnded "c2" "ap2"
        (some "disconnect") "The other participant disconnected")) = true
    ∧ ((handleEndCall
        ⟨[("A", "sA"), ("B", "sB")], [("sA", "A"), ("sB", "B")],
         [("c2", ⟨"A", "B", 0, "ap2", some (JsNum.int 60000)⟩)], []⟩ "sA" "c2" "ap2" false).2.any
      fun a => a.isRecordingStop) = true := by
  decide

/-- C1 (corrected): the exclusivity guard of `handleCall` consults only
`activeCalls`: initiation fails with the AlreadyInCall-style `callError`
and leaves the state unchanged exactly when the caller (resp. the
receiver) is a party of an Active Call; pending Call Requests are never
consulted, so the claimed invariant over Call Requests does not hold. -/
theorem C1_initiate_active_call_guard (st : GatewayState)
    (clientSid appointmentId receiver offer callerId : String) (env : CallEnv)
    (huser : jsGet st.socketToUser clientSid = some callerId) :
    ((st.activeCalls.find? fun p =>
          p.2.caller == callerId || p.2.receiver == callerId).isSome = true
      → handleCall st clientSid appointmentId receiver offer env
          = (st, [Action.emit clientSid
              (Event.callError "You are already in another call. Please end it first.")]))
    ∧ ((st.activeCalls.find? fun p =>
          p.2.caller == callerId || p.2.receiver == callerId) = none
      → (st.activeCalls.find? fun p =>
          p.2.caller == receiver || p.2.receiver == receiver).isSome = true
      → handleCall st clientSid appointmentId receiver offer env
          = (st, [Action.emit clientSid
              (Event.callError "Recipient is already in another call.")])) := by
  constructor
  · intro hbusy
    rcases Option.isSome_iff_exists.mp hbusy with ⟨pr, hpr⟩
    simp [handleCall, huser, hpr]
  · intro hfree hbusy
    rcases Option.isSome_iff_exists.mp hbusy with ⟨pr, hpr⟩
    simp [handleCall, huser, hfree, hpr]

/-- C1 witness: both guard directions of the theorem, instantiated: a
caller in an active call is refused, and a free caller dialing a busy
receiver is refused, with no state change. -/
theorem C1_initiate_active_call_guard_witness :
    handleCall
        ⟨[("A", "sA")], [("sA", "A")],
         [("c0", ⟨"A", "X", 0, "ap0", none⟩)], []⟩ "sA" "ap" "B" "off"
        ⟨some ⟨"A", "B"⟩, ⟨true, "", none⟩, ⟨true, "", none⟩, "r"⟩
      = (⟨[("A", "sA")], [("sA", "A")],
          [("c0", ⟨"A", "X", 0, "ap0", none⟩)], []⟩,
         [Action.emit "sA"
           (Event.callError "You are already in another call. Please end it first.")])
    ∧ handleCall
        ⟨[("A", "sA")], [("sA", "A")],
         [("c0", ⟨"B", "X", 0, "ap0", none⟩)], []⟩ "sA" "ap" "B" "off"
        ⟨some ⟨"A", "B"⟩, ⟨true, "", none⟩, ⟨true, "", none⟩, "r"⟩
      = (⟨[("A", "sA")], [("sA", "A")],
          [("c0", ⟨"B", "X", 0, "ap0", none⟩)], []⟩,
         [Action.emit "sA"
           (Event.callError "Recipient is already in another call.")]) :=
  ⟨(C1_initiate_active_call_guard
      ⟨[("A", "sA")], [("sA", "A")], [("c0", ⟨"A", "X", 0, "ap0", none⟩)], []⟩
      "sA" "ap" "B" "off" "A"
      ⟨some ⟨"A", "B"⟩, ⟨true, "", none⟩, ⟨true, "", none⟩, "r"⟩
      (by decide)).1 (by decide),
   (C1_initiate_active_call_guard
      ⟨[("A", "sA")], [("sA", "A")], [("c0", ⟨"B", "X", 0, "ap0", none⟩)], []⟩
      "sA" "ap" "B" "off" "A"
      ⟨some ⟨"A", "B"⟩, ⟨true, "", none⟩, ⟨true, "", none⟩, "r"⟩
      (by decide)).2 (by decide) (by decide)⟩

/-- C1 counterexample: the claim says initiation fails whenever the caller
already owns a pending Call Request.  On the code, caller A with pending
request `r1` (to B) successfully initiates a second call to C: the second
`handleCall` rings (`callRinging`, no error) and afterwards A is the
caller of two simultaneous Call Requests — the exclusivity invariant is
violated in a reachable state. -/
theorem C1_initiate_exclusivity_counterexample :
    (let st3 : GatewayState :=
      (handleConnection ((handleConnection ((handleConnection
        ⟨[], [], [], []⟩ "sA" "A").1) "sB" "B").1) "sC" "C").1
     let r1 := handleCall st3 "sA" "ap1" "B" "offer1"
       ⟨some ⟨"A", "B"⟩, ⟨true, "", none⟩, ⟨true, "", none⟩, "r1"⟩
     let r2 := handleCall r1.1 "sA" "ap2" "C" "offer2"
       ⟨some ⟨"A", "C"⟩, ⟨true, "", none⟩, ⟨true, "", none⟩, "r2"⟩
     jsGet r1.1.callRequests "r1" = some ⟨"A", "B", "ap1"⟩
       ∧ jsGet r2.1.callRequests "r1" = some ⟨"A", "B", "ap1"⟩
       ∧ jsGet r2.1.callRequests "r2" = some ⟨"A", "C", "ap2"⟩
       ∧ r2.2 = [Action.recordingInit "ap2", Action.setReqTimeout "r2" 30000,
            Action.emit "sC" (Event.incomingCall "r2" "A" "ap2" "offer2" true),
            Action.emit "sA" (Event.callRinging "r2" "C")]) := by
  decide

/-- C5 (corrected): `clients` binds each user to a single socket id, so a
second `handleConnection` of the same user displaces the previous
connection in the user-to-socket map (the reverse index still knows both
sockets), and message relay reaches only the most recent connection. -/
theorem C5_register_keeps_latest_connection (st : GatewayState)
    (s1 s2 u fromUser data : String) (h : s1 ≠ s2) :
    jsGet ((handleConnection (handleConnection st s1 u).1 s2 u).1).clients u = some s2
      ∧ jsGet ((handleConnection (handleConnection st s1 u).1 s2 u).1).socketToUser s1 = some u
      ∧ jsGet ((handleConnection (handleConnection st s1 u).1 s2 u).1).socketToUser s2 = some u
      ∧ listenForMessages ((handleConnection (handleConnection st s1 u).1 s2 u).1) u fromUser data
          = [Action.emit s2 (Event.message fromUser data)] := by
  have hc : jsGet ((handleConnection (handleConnection st s1 u).1 s2 u).1).clients u = some s2 := by
    simp only [handleConnection, jsSet_jsSet]
    exact jsGet_jsSet_self _ _ _
  refine ⟨hc, ?_, ?_, ?_⟩
  · simp only [handleConnection]
    rw [jsGet_jsSet_ne _ _ _ _ h]
    exact jsGet_jsSet_self _ _ _
  · simp only [handleConnection]
    exact jsGet_jsSet_self _ _ _
  · simp [listenForMessages, hc]

/-- C5 witness: two concrete connections of the same user, evaluated
through the theorem. -/
theorem C5_register_keeps_latest_connection_witness :
    jsGet ((handleConnection (handleConnection ⟨[], [], [], []⟩ "s1" "u").1 "s2" "u").1).clients "u" = some "s2"
      ∧ jsGet ((handleConnection (handleConnection ⟨[], [], [], []⟩ "s1" "u").1 "s2" "u").1).socketToUser "s1" = some "u"
      ∧ jsGet ((handleConnection (handleConnection ⟨[], [], [], []⟩ "s1" "u").1 "s2" "u").1).socketToUser "s2" = some "u"
      ∧ listenForMessages ((handleConnection (handleConnection ⟨[], [], [], []⟩ "s1" "u").1 "s2" "u").1) "u" "x" "hello"
          = [Action.emit "s2" (Event.message "x" "hello")] :=
  C5_register_keeps_latest_connection ⟨[], [], [], []⟩ "s1" "s2" "u" "x" "hello" (by decide)

/-- C5 counterexample: the claim says `register` adds the connection to the
user's set without displacing previous ones and that messages reach every
live connection.  On the code, after user `u` connects on `s1` and then on
`s2`, the registry resolves `u` to `s2` only — `s1` is still live per the
reverse index, yet a relayed message is emitted solely to `s2`. -/
theorem C5_register_displaces_counterexample :
    (let st2 : GatewayState :=
      (handleConnection ((handleConnection ⟨[], [], [], []⟩ "s1" "u").1) "s2" "u").1
     st2.clients = [("u", "s2")]
       ∧ jsGet st2.socketToUser "s1" = some "u"
       ∧ listenForMessages st2 "u" "x" "hello"
           = [Action.emit "s2" (Event.message "x" "hello")]) := by
  decide

/-- C2 (corrected): `handleAnswer` has no UnknownRequest guard.  When no
Call Request matches `callId`, the accept proceeds exactly as for a known
request: provided access validation succeeds and the caller is reachable,
an Active Call is created, the duration timer is started and
`callAccepted` is relayed to the caller; the only difference from a known
request is that no timer is cancelled. -/
theorem C2_accept_unknown_request_proceeds
    (st : GatewayState) (clientSid callId caller appointmentId answer : String)
    (validation : AnswerValidation) (recordingFails : Bool) (now : Nat)
    (receiverId sid0 callerSocketId : String)
    (hfind : (st.clients.find? fun p => p.2 == clientSid) = some (receiverId, sid0))
    (hreq : jsGet st.callRequests callId = none)
    (hval : validation.success = true)
    (hcaller : jsGet st.clients caller = some callerSocketId) :
    handleAnswer st clientSid callId caller appointmentId answer validation recordingFails now
      = ({st with activeCalls := jsSet st.activeCalls callId (⟨caller, receiverId, now,
            appointmentId, some (jsMul (jsMul (jsAdd
               (match durationChain validation with
                | some d => if d = "" then JsNum.int 60 else jsParseInt d
                | none => JsNum.int 60) (JsNum.int 5)) (JsNum.int 60)) (JsNum.int 1000))⟩ : ActiveCall)},
         [Action.recordingStart appointmentId callId (!recordingFails),
          Action.setCallTimeout callId
            (jsMul (jsMul (jsAdd
               (match durationChain validation with
                | some d => if d = "" then JsNum.int 60 else jsParseInt d
                | none => JsNum.int 60) (JsNum.int 5)) (JsNum.int 60)) (JsNum.int 1000)),
          Action.emit callerSocketId
            (Event.callAccepted callId answer receiverId appointmentId)]) := by
  simp [handleAnswer, hfind, hreq, hval, hcaller, jsGet_jsSet_self, jsSet_jsSet]

/-- C2 witness: a concrete accept for a request id that is not pending,
evaluated through the theorem: an Active Call appears, a 65-minute timer
is started and `callAccepted` is relayed. -/
theorem C2_accept_unknown_request_proceeds_witness :
    handleAnswer ⟨[("A", "sA"), ("B", "sB")], [("sA", "A"), ("sB", "B")], [], []⟩
        "sB" "ghost" "A" "ap1" "ans" ⟨true, "", none⟩ false 0
      = (⟨[("A", "sA"), ("B", "sB")], [("sA", "A"), ("sB", "B")],
          [("ghost", ⟨"A", "B", 0, "ap1", some (JsNum.int 3900000)⟩)], []⟩,
         [Action.recordingStart "ap1" "ghost" true,
          Action.setCallTimeout "ghost" (JsNum.int 3900000),
          Action.emit "sA" (Event.callAccepted "ghost" "ans" "B" "ap1")]) := by
  have h := C2_accept_unknown_request_proceeds
    ⟨[("A", "sA"), ("B", "sB")], [("sA", "A"), ("sB", "B")], [], []⟩
    "sB" "ghost" "A" "ap1" "ans" ⟨true, "", none⟩ false 0
    "B" "sB" "sA" (by decide) (by decide) rfl (by decide)
  exact h.trans (by decide)

/-- C2 counterexample: the claim says an accept whose request id has no
matching Call Request fails with UnknownRequest, creating no Active Call,
starting no timer and relaying no `callAccepted`.  On the code, with an
empty `callRequests` map, the accept creates the Active Call, starts the
duration timer and relays `callAccepted`; no error of any kind is sent. -/
theorem C2_accept_unknown_request_counterexample :
    (let r := handleAnswer
        ⟨[("A", "sA"), ("B", "sB")], [("sA", "A"), ("sB", "B")], [], []⟩
        "sB" "ghost2" "A" "ap2" "ans2" ⟨true, "", none⟩ false 7
     jsGet r.1.activeCalls "ghost2"
        = some ⟨"A", "B", 7, "ap2", some (JsNum.int 3900000)⟩
       ∧ (r.2.any fun a =>
            a == Action.emit "sA" (Event.callAccepted "ghost2" "ans2" "B" "ap2")) = true
       ∧ (r.2.any fun a => a == Action.setCallTimeout "ghost2" (JsNum.int 3900000)) = true
       ∧ (r.2.all fun a =>
            match a with
            | Action.emit _ (Event.answerError _) => false
            | _ => true) = true) := by
  decide

/-- C6 (corrected): for an accepted call the duration timer delay is
`(durationInMinutes + 5) * 60 * 1000` where `durationInMinutes` is 60 only
when the session-context metadata is absent or the empty string; when the
metadata is present and non-empty it is JavaScript `parseInt` of it, which
is `NaN` — not the 60-minute fallback — whenever the value is unparseable
as a number. -/
theorem C6_duration_timer_formula
    (st : GatewayState) (clientSid callId caller appointmentId answer : String)
    (validation : AnswerValidation) (recordingFails : Bool) (now : Nat)
    (receiverId sid0 callerSocketId : String) (req : CallRequest)
    (hfind : (st.clients.find? fun p => p.2 == clientSid) = some (receiverId, sid0))
    (hreq : jsGet st.callRequests callId = some req)
    (hval : validation.success = true)
    (hcaller : jsGet st.clients caller = some callerSocketId) :
    handleAnswer st clientSid callId caller appointmentId answer validation recordingFails now
      = ({st with callRequests := jsDelete st.callRequests callId,
                  activeCalls := jsSet st.activeCalls callId (⟨caller, receiverId, now,
                    appointmentId, some (jsMul (jsMul (jsAdd
                      (match durationChain validation with
                       | some d => if d = "" then JsNum.int 60 else jsParseInt d
                       | none => JsNum.int 60) (JsNum.int 5)) (JsNum.int 60))
                      (JsNum.int 1000))⟩ : ActiveCall)},
         [Action.clearTimer callId,
          Action.recordingStart appointmentId callId (!recordingFails),
          Action.setCallTimeout callId
            (jsMul (jsMul (jsAdd
               (match durationChain validation with
                | some d => if d = "" then JsNum.int 60 else jsParseInt d
                | none => JsNum.int 60) (JsNum.int 5)) (JsNum.int 60)) (JsNum.int 1000)),
          Action.emit callerSocketId
            (Event.callAccepted callId answer receiverId appointmentId)]) := by
  simp [handleAnswer, hfind, hreq, hval, hcaller, jsGet_jsSet_self, jsSet_jsSet]

/-- C6 witness: a concrete accept whose session metadata is the parseable
string `"30"`, evaluated through the theorem: the timer delay is
`(30 + 5) * 60 * 1000 = 2100000` milliseconds. -/
theorem C6_duration_timer_formula_witness :
    handleAnswer ⟨[("A", "sA"), ("B", "sB")], [("sA", "A"), ("sB", "B")], [],
        [("r9", ⟨"A", "B", "ap1"⟩)]⟩
        "sB" "r9" "A" "ap1" "ans" ⟨true, "", some ⟨some ⟨some "30"⟩⟩⟩ false 0
      = (⟨[("A", "sA"), ("B", "sB")], [("sA", "A"), ("sB", "B")],
          [("r9", ⟨"A", "B", 0, "ap1", some (JsNum.int 2100000)⟩)], []⟩,
         [Action.clearTimer "r9",
          Action.recordingStart "ap1" "r9" true,
          Action.setCallTimeout "r9" (JsNum.int 2100000),
          Action.emit "sA" (Event.callAccepted "r9" "ans" "B" "ap1")]) := by
  have h := C6_duration_timer_formula
    ⟨[("A", "sA"), ("B", "sB")], [("sA", "A"), ("sB", "B")], [],
     [("r9", ⟨"A", "B", "ap1"⟩)]⟩
    "sB" "r9" "A" "ap1" "ans" ⟨true, "", some ⟨some ⟨some "30"⟩⟩⟩ false 0
    "B" "sB" "sA" ⟨"A", "B", "ap1"⟩ (by decide) (by decide) rfl (by decide)
  exact h.trans (by decide)

/-- C6 counterexample: the claim says the 60-minute default applies
whenever the metadata is unparseable as a number.  On the code, a pending
request accepted with metadata `"abc"` (present, non-empty, unparseable)
starts the duration timer with delay `NaN`, not
`(60 + 5) * 60 * 1000` milliseconds. -/
theorem C6_duration_nan_counterexample :
    (handleAnswer ⟨[("A", "sA"), ("B", "sB")], [("sA", "A"), ("sB", "B")], [],
        [("r8", ⟨"A", "B", "ap1"⟩)]⟩
        "sB" "r8" "A" "ap1" "ans" ⟨true, "", some ⟨some ⟨some "abc"⟩⟩⟩ false 0).2
      = [Action.clearTimer "r8",
         Action.recordingStart "ap1" "r8" true,
         Action.setCallTimeout "r8" JsNum.nan,
         Action.emit "sA" (Event.callAccepted "r8" "ans" "B" "ap1")]
    ∧ JsNum.nan ≠ JsNum.int ((60 + 5) * 60 * 1000) := by
  decide

/-- C10: accept is not atomic on the caller-unreachable error path.  With a
pending request and a successful validation, if the caller has no live
connection the accepter receives `answerError` and no Active Call is
created — but the Call Request was already removed and its unanswered
timer cancelled before the reachability check, so afterwards the request
id resolves to nothing and a subsequent reject is a silent no-op. -/
theorem C10_accept_caller_unreachable
    (st : GatewayState) (clientSid callId caller appointmentId answer : String)
    (validation : AnswerValidation) (recordingFails : Bool) (now : Nat)
    (receiverId sid0 sid2 reason : String) (req : CallRequest)
    (hfind : (st.clients.find? fun p => p.2 == clientSid) = some (receiverId, sid0))
    (hreq : jsGet st.callRequests callId = some req)
    (hval : validation.success = true)
    (hcaller : jsGet st.clients caller = none) :
    handleAnswer st clientSid callId caller appointmentId answer validation recordingFails now
      = ({st with callRequests := jsDelete st.callRequests callId},
         [Action.clearTimer callId,
          Action.emit clientSid (Event.answerError "Caller is no longer available.")])
    ∧ jsGet ({st with callRequests := jsDelete st.callRequests callId}).callRequests callId = none
    ∧ handleRejectCall {st with callRequests := jsDelete st.callRequests callId} sid2 callId reason
        = ({st with callRequests := jsDelete st.callRequests callId}, []) := by
  refine ⟨?_, ?_, ?_⟩
  · simp [handleAnswer, hfind, hreq, hval, hcaller]
  · exact jsGet_jsDelete_self _ _
  · unfold handleRejectCall
    cases hf : (st.clients.find? fun p => p.2 == sid2).map Prod.fst with
    | none => simp [hf]
    | some rid => simp [hf, jsGet_jsDelete_self]

/-- C10 witness: a concrete accept while the caller is offline, evaluated
through the theorem: `answerError` is sent, the request map no longer
resolves the id, and a follow-up reject is a silent no-op. -/
theorem C10_accept_caller_unreachable_witness :
    handleAnswer ⟨[("B", "sB")], [("sB", "B")], [], [("r1", ⟨"A", "B", "ap1"⟩)]⟩
        "sB" "r1" "A" "ap1" "ans" ⟨true, "", none⟩ false 0
      = (⟨[("B", "sB")], [("sB", "B")], [], []⟩,
         [Action.clearTimer "r1",
          Action.emit "sB" (Event.answerError "Caller is no longer available.")])
    ∧ jsGet ([] : List (String × CallRequest)) "r1" = none
    ∧ handleRejectCall ⟨[("B", "sB")], [("sB", "B")], [], []⟩ "sX" "r1" "nope"
        = (⟨[("B", "sB")], [("sB", "B")], [], []⟩, []) := by
  have h := C10_accept_caller_unreachable
    ⟨[("B", "sB")], [("sB", "B")], [], [("r1", ⟨"A", "B", "ap1"⟩)]⟩
    "sB" "r1" "A" "ap1" "ans" ⟨true, "", none⟩ false 0
    "B" "sB" "sX" "nope" ⟨"A", "B", "ap1"⟩
    (by decide) (by decide) rfl (by decide)
  exact ⟨h.1.trans (by decide), by decide, by decide⟩

/-- C9: a failure of the recording hook never blocks call progression.
For every accept, `handleAnswer` with a throwing recording-start reaches
exactly the same state and delivers exactly the same participant-facing
events as with a succeeding one (the request is still promoted, the timer
still started, `callAccepted` still relayed); likewise for every end,
`handleEndCall` with a throwing recording-stop still removes the call and
still sends both `callEnded` notices — the failure is only logged. -/
theorem C9_recording_failure_harmless (st : GatewayState)
    (clientSid callId caller appointmentId answer : String)
    (validation : AnswerValidation) (now : Nat)
    (st2 : GatewayState) (sid2 cid2 aid2 : String) :
    ((handleAnswer st clientSid callId caller appointmentId answer validation true now).1
        = (handleAnswer st clientSid callId caller appointmentId answer validation false now).1
      ∧ participantEmits
          (handleAnswer st clientSid callId caller appointmentId answer validation true now).2
        = participantEmits
          (handleAnswer st clientSid callId caller appointmentId answer validation false now).2)
    ∧ ((handleEndCall st2 sid2 cid2 aid2 true).1 = (handleEndCall st2 sid2 cid2 aid2 false).1
      ∧ participantEmits (handleEndCall st2 sid2 cid2 aid2 true).2
        = participantEmits (handleEndCall st2 sid2 cid2 aid2 false).2) := by
  constructor
  · unfold handleAnswer
    cases hfind : (st.clients.find? fun p => p.2 == clientSid).map Prod.fst with
    | none => exact ⟨rfl, rfl⟩
    | some rid =>
        cases hreq : jsGet st.callRequests callId with
        | none =>
            by_cases hval : validation.success = false
            · simp [hval]
            · simp only [hval, if_false]
              cases hcaller : jsGet st.clients caller with
              | none => simp [participantEmits]
              | some csid => simp [participantEmits]
        | some r =>
            by_cases hval : validation.success = false
            · simp [hval]
            · simp only [hval, if_false]
              cases hcaller : jsGet
                  ({st with callRequests := jsDelete st.callRequests callId}).clients caller with
              | none => simp [participantEmits]
              | some csid => simp [participantEmits]
  · unfold handleEndCall
    cases hcall : jsGet st2.activeCalls cid2 with
    | none => exact ⟨rfl, rfl⟩
    | some call =>
        refine ⟨rfl, ?_⟩
        simp [participantEmits]

/-- C8: candidates delivered before the remote description are buffered
and flushed exactly once, in arrival order.  For every inbound event
sequence containing the remote-description application, the candidates
handed to the peer connection are exactly the received candidates in
arrival order — none dropped, none duplicated — and the buffer ends
empty, regardless of the interleaving of description and candidates. -/
theorem C8_candidate_buffering (evs : List SignalEv)
    (h : SignalEv.remoteDescription ∈ evs) :
    (clientRun initialClientState evs).addedCandidates = candidatesOf evs
      ∧ (clientRun initialClientState evs).candidateQueue = [] := by
  have hrun := clientRun_flushes evs initialClientState rfl h
  rw [hrun]
  exact ⟨rfl, rfl⟩

/-- C8 witness: two candidates arriving before the description and one
after, evaluated through the theorem: all three are added, in order, and
the buffer is empty. -/
theorem C8_candidate_buffering_witness :
    (clientRun initialClientState
        [SignalEv.candidate "c1", SignalEv.candidate "c2",
         SignalEv.remoteDescription, SignalEv.candidate "c3"]).addedCandidates
      = ["c1", "c2", "c3"]
    ∧ (clientRun initialClientState
        [SignalEv.candidate "c1", SignalEv.candidate "c2",
         SignalEv.remoteDescription, SignalEv.candidate "c3"]).candidateQueue = [] := by
  have h := C8_candidate_buffering
    [SignalEv.candidate "c1", SignalEv.candidate "c2",
     SignalEv.remoteDescription, SignalEv.candidate "c3"] (by decide)
  exact ⟨h.1.trans (by decide), h.2⟩

end VideoCall
